import Mathlib

/-!
# Verification of the AI-Medical-Chatbot image-query pipeline

Shallow embedding of the two entry points of the repository:

* `process_image` — the CLI pipeline of `main.py` (lines 31-101),
* `upload_and_query` — the web pipeline of `app.py` (lines 41-110).

Both read image bytes, base64-encode them, validate them with PIL,
build a chat-completion request for the Groq API and map the response
or the failure into a caller-facing result.

External collaborators are modelled as explicit oracles:

* PIL's `Image.open(...).verify()` is a parameter
  `pilVerify : List Nat → Option String` (`some detail` = the verify
  step raised an exception with text `detail`, `none` = it passed);
* the file system of the CLI is a `FileOutcome`;
* the single outbound `requests.post` is a `NetOutcome`; the pipelines
  return, next to their result, the JSON body they posted
  (`none` = the network call was never issued).

Bytes are `Nat` values; a byte list is well formed when every entry
is below 256.
-/

set_option autoImplicit false

namespace MedicalChatbot

/-- Minimal JSON value model: enough for the request body the pipelines
build and the response bodies they inspect. -/
inductive Json where
  | null : Json
  | str : String → Json
  | num : Nat → Json
  | arr : List Json → Json
  | obj : List (String × Json) → Json

/-- Dictionary lookup on a JSON object (`none` on non-objects or
missing keys). -/
def Json.getField : Json → String → Option Json
  | Json.obj kvs, k => List.lookup k kvs
  | _, _ => none

/-! ## Base64 (RFC 4648, with padding), as used by `base64.b64encode` -/

/-- The 64-character base64 alphabet as ASCII codes:
`A`-`Z`, `a`-`z`, `0`-`9`, `+`, `/`. -/
def b64Alphabet : List Nat :=
  [65, 66, 67, 68, 69, 70, 71, 72, 73, 74, 75, 76, 77, 78, 79, 80,
   81, 82, 83, 84, 85, 86, 87, 88, 89, 90,
   97, 98, 99, 100, 101, 102, 103, 104, 105, 106, 107, 108, 109, 110,
   111, 112, 113, 114, 115, 116, 117, 118, 119, 120, 121, 122,
   48, 49, 50, 51, 52, 53, 54, 55, 56, 57, 43, 47]

/-- ASCII code of the i-th alphabet character. -/
def b64e (i : Nat) : Nat := b64Alphabet.getD i 0

/-- Position of an ASCII code in a list (used to invert `b64e`). -/
def idxOf : List Nat → Nat → Nat
  | [], _ => 0
  | a :: as, c => if a = c then 0 else idxOf as c + 1

/-- Alphabet position of an ASCII code. -/
def b64d (c : Nat) : Nat := idxOf b64Alphabet c

/-- `base64.b64encode`: bytes to the ASCII codes of the base64 text,
three input bytes to four output characters, `=` (ASCII 61) padding. -/
def b64encode : List Nat → List Nat
  | [] => []
  | [a] => [b64e (a / 4), b64e (a % 4 * 16), 61, 61]
  | [a, b] => [b64e (a / 4), b64e (a % 4 * 16 + b / 16), b64e (b % 16 * 4), 61]
  | a :: b :: c :: rest =>
      b64e (a / 4) :: b64e (a % 4 * 16 + b / 16) ::
      b64e (b % 16 * 4 + c / 64) :: b64e (c % 64) :: b64encode rest

/-- `base64.b64decode`: the standard inverse of `b64encode` (the decoder
is not part of the repository; it is the canonical RFC 4648 decoder the
spec's round-trip property refers to). -/
def b64decode : List Nat → List Nat
  | c1 :: c2 :: c3 :: c4 :: rest =>
      if c3 = 61 then
        [b64d c1 * 4 + b64d c2 / 16]
      else if c4 = 61 then
        [b64d c1 * 4 + b64d c2 / 16, b64d c2 % 16 * 16 + b64d c3 / 4]
      else
        (b64d c1 * 4 + b64d c2 / 16) :: (b64d c2 % 16 * 16 + b64d c3 / 4) ::
        (b64d c3 % 4 * 64 + b64d c4) :: b64decode rest
  | _ => []

/-- `.decode("utf-8")` on the base64 bytes: turn ASCII codes into a
Lean string (all codes produced by `b64encode` are ASCII). -/
def bytesToString (bs : List Nat) : String :=
  String.mk (bs.map Char.ofNat)

/-! ## Case-insensitive substring test (to state "the message mentions X") -/

/-- Does the character list start with the pattern? -/
def startsWithL : List Char → List Char → Bool
  | _, [] => true
  | [], _ :: _ => false
  | a :: as, b :: bs => a == b && startsWithL as bs

/-- Does the pattern occur somewhere in the character list? -/
def containsL : List Char → List Char → Bool
  | [], needle => needle.isEmpty
  | a :: rest, needle => startsWithL (a :: rest) needle || containsL rest needle

/-- `mentionsCI msg pat`: `pat` occurs in `msg` up to ASCII case. -/
def mentionsCI (msg pat : String) : Bool :=
  containsL (msg.data.map Char.toLower) (pat.data.map Char.toLower)

/-! ## Shared constants of both entry points -/

/-- `main.py` line 25 and `app.py` line 28. -/
def VISION_MODEL : String := "meta-llama/llama-4-scout-17b-16e-instruct"

/-- `main.py` line 17 and `app.py` line 24. -/
def GROQ_API_URL : String := "https://api.groq.com/openai/v1/chat/completions"

/-! ## Oracles for the external collaborators -/

/-- Outcome of the single `requests.post` call.
`response status body` carries the parsed `response.json()` as
`Except.ok`, or `Except.error detail` when the body is not JSON and
`.json()` raises with text `detail` (`.json()` is only evaluated in the
branches that call it). -/
inductive NetOutcome where
  | timeout (detail : String)
  | netError (detail : String)
  | response (status : Nat) (body : Except String Json)

/-- Outcome of `open(image_path, "rb").read()` in the CLI pipeline. -/
inductive FileOutcome where
  | notFound
  | content (bytes : List Nat)
  | readError (detail : String)

/-- Result of the web endpoint: a 200 JSON response, or a raised
`HTTPException` with a status code and a detail string. -/
inductive WebResult where
  | jsonOk (content : List (String × Json))
  | httpError (status : Nat) (detail : String)

/-! ## Request construction (identical in both files) -/

/-- The JSON body posted to the Groq endpoint
(`main.py` lines 52-71, `app.py` lines 65-83). -/
def requestBody (query : String) (encoded_image : String) : Json :=
  Json.obj
    [("model", Json.str VISION_MODEL),
     ("messages", Json.arr
       [Json.obj
         [("role", Json.str "user"),
          ("content", Json.arr
            [Json.obj [("type", Json.str "text"), ("text", Json.str query)],
             Json.obj [("type", Json.str "image_url"),
                       ("image_url", Json.obj
                         [("url", Json.str
                           ("data:image/jpeg;base64," ++ encoded_image))])]])]]),
     ("max_tokens", Json.num 1000)]

/-- `result["choices"][0]["message"]["content"]`
(`main.py` line 82, `app.py` line 94). `Except.error` stands for the
Python exception the subscript chain raises; the detail strings
approximate CPython's exception text, no claim depends on them. -/
def extractAnswer : Json → Except String Json
  | Json.obj kvs =>
      match List.lookup "choices" kvs with
      | none => Except.error "'choices'"
      | some (Json.arr []) => Except.error "list index out of range"
      | some (Json.arr (c :: _)) =>
          match c with
          | Json.obj kvs2 =>
              match List.lookup "message" kvs2 with
              | none => Except.error "'message'"
              | some (Json.obj kvs3) =>
                  match List.lookup "content" kvs3 with
                  | none => Except.error "'content'"
                  | some v => Except.ok v
              | some _ => Except.error "subscript on a non-dict"
          | _ => Except.error "subscript on a non-dict"
      | some _ => Except.error "subscript on a non-list"
  | _ => Except.error "subscript on a non-dict"

/-- How an f-string renders an extracted JSON value; string values are
interpolated verbatim, the remaining shapes (never produced in the
claims) are rendered approximately. -/
def pyFormat : Json → String
  | Json.str s => s
  | Json.num n => toString n
  | Json.null => "None"
  | Json.arr _ => "<list>"
  | Json.obj _ => "<dict>"

/-- `response.json().get("error", \x7b\x7d).get("message", "Unknown Groq API Error")`
(`app.py` line 101). `Except.error` stands for the `AttributeError`
raised when `.get` is called on a non-dict. -/
def upstreamErrorDetail : Json → Except String String
  | Json.obj kvs =>
      match List.lookup "error" kvs with
      | none => Except.ok "Unknown Groq API Error"
      | some (Json.obj kvs2) =>
          match List.lookup "message" kvs2 with
          | none => Except.ok "Unknown Groq API Error"
          | some v => Except.ok (pyFormat v)
      | some _ => Except.error "get on a non-dict"
  | _ => Except.error "get on a non-dict"

/-! ## The CLI pipeline: `process_image` of `main.py` (lines 31-101)

The returned pair is the Python dict (as an association list) together
with the JSON body given to `requests.post`, `none` when the call was
never issued. The `logger` calls are diagnostic only and not modelled
(in particular the `answer[:100]` slice in the success log line, which
assumes a sliceable content value, is not modelled). -/

def process_image (pilVerify : List Nat → Option String) (net : NetOutcome)
    (fileOut : FileOutcome) (image_path query : String) :
    List (String × Json) × Option Json :=
  match fileOut with
  | FileOutcome.notFound =>
      ([("error", Json.str ("Image file not found: " ++ image_path))], none)
  | FileOutcome.readError d =>
      ([("error", Json.str ("An unexpected error occurred : " ++ d))], none)
  | FileOutcome.content image_content =>
      let encoded_image := bytesToString (b64encode image_content)
      match pilVerify image_content with
      | some e =>
          ([("error", Json.str ("Invalid image format: " ++ e))], none)
      | none =>
          let body := requestBody query encoded_image
          match net with
          | NetOutcome.timeout _ =>
              ([("error", Json.str "Request timed out.")], some body)
          | NetOutcome.netError d =>
              ([("error", Json.str ("Network error: " ++ d))], some body)
          | NetOutcome.response status jbody =>
              if status = 200 then
                match jbody with
                | Except.error d =>
                    ([("error", Json.str ("An unexpected error occurred : " ++ d))],
                     some body)
                | Except.ok j =>
                    match extractAnswer j with
                    | Except.ok answer => ([(VISION_MODEL, answer)], some body)
                    | Except.error d =>
                        ([("error",
                           Json.str ("An unexpected error occurred : " ++ d))],
                         some body)
              else
                ([("error",
                   Json.str ("Error from Groq API: " ++ toString status))],
                 some body)

/-! ## The web pipeline: `upload_and_query` of `app.py` (lines 41-110)

`image_content` is the uploaded bytes (`await image.read()` assumed to
succeed; its failure path is the generic 500 handler and is exercised
by no claim). An exception that is not an `HTTPException` is converted
to a 500 by the outer handler (lines 108-110). -/

def upload_and_query (pilVerify : List Nat → Option String) (net : NetOutcome)
    (image_content : List Nat) (query : String) : WebResult × Option Json :=
  if image_content.isEmpty then
    (WebResult.httpError 400 "Empty file uploaded.", none)
  else
    let encoded_image := bytesToString (b64encode image_content)
    match pilVerify image_content with
    | some e =>
        (WebResult.httpError 400 ("Invalid image format: " ++ e), none)
    | none =>
        let body := requestBody query encoded_image
        match net with
        | NetOutcome.timeout d =>
            (WebResult.httpError 500 ("Internal Server Error: " ++ d), some body)
        | NetOutcome.netError d =>
            (WebResult.httpError 500 ("Internal Server Error: " ++ d), some body)
        | NetOutcome.response status jbody =>
            if status = 200 then
              match jbody with
              | Except.error d =>
                  (WebResult.httpError 500 ("Internal Server Error: " ++ d),
                   some body)
              | Except.ok j =>
                  match extractAnswer j with
                  | Except.ok answer =>
                      (WebResult.jsonOk [(VISION_MODEL, answer)], some body)
                  | Except.error d =>
                      (WebResult.httpError 500 ("Internal Server Error: " ++ d),
                       some body)
            else
              match jbody with
              | Except.error d =>
                  (WebResult.httpError 500 ("Internal Server Error: " ++ d),
                   some body)
              | Except.ok j =>
                  match upstreamErrorDetail j with
                  | Except.ok error_detail =>
                      (WebResult.httpError status
                         ("Groq API Error: " ++ error_detail), some body)
                  | Except.error d =>
                      (WebResult.httpError 500 ("Internal Server Error: " ++ d),
                       some body)

/-! ## Accessors used by the theorems -/

/-- The message under the "error" key of a CLI result dict. -/
def errMsgOf (r : List (String × Json)) : Option String :=
  match List.lookup "error" r with
  | some (Json.str m) => some m
  | _ => none

/-- The answer under the model-identifier key of a CLI result dict. -/
def answerOf (r : List (String × Json)) : Option Json :=
  List.lookup VISION_MODEL r

/-- The `image_url.url` string of the second content part of the first
message of a request body. -/
def imageUrlOf (body : Json) : Option String :=
  match body.getField "messages" with
  | some (Json.arr [m]) =>
      match m.getField "content" with
      | some (Json.arr [_, p]) =>
          match p.getField "image_url" with
          | some iu =>
              match iu.getField "url" with
              | some (Json.str u) => some u
              | _ => none
          | _ => none
      | _ => none
  | _ => none

/-- A 200 response body of the shape the spec's mocked endpoint returns:
an object whose "choices" entry is a one-element list holding an object
whose "message" entry holds "content" equal to `X`. -/
def ok200Body (X : String) : Json :=
  Json.obj [("choices", Json.arr
    [Json.obj [("message", Json.obj [("content", Json.str X)])]])]

/-- A non-200 error body carrying an upstream error message. -/
def errBody (m : String) : Json :=
  Json.obj [("error", Json.obj [("message", Json.str m)])]

/-! ## Base64 round-trip -/

/-- Decoding inverts encoding on every alphabet position, and `=`
(ASCII 61) is not in the alphabet. -/
theorem b64_table_inv : ∀ i : Fin 64, b64d (b64e i.val) = i.val ∧ b64e i.val ≠ 61 := by
  decide

theorem b64_inv {s : Nat} (h : s < 64) : b64d (b64e s) = s :=
  (b64_table_inv ⟨s, h⟩).1

theorem b64e_ne_61 {s : Nat} (h : s < 64) : b64e s ≠ 61 :=
  (b64_table_inv ⟨s, h⟩).2

/-- C9 (helper): decoding the encoding of a well-formed byte list gives
the list back. -/
theorem b64decode_b64encode (bs : List Nat) (h : ∀ x ∈ bs, x < 256) :
    b64decode (b64encode bs) = bs := by
  induction bs using b64encode.induct with
  | case1 => rfl
  | case2 a =>
      have ha : a < 256 := h a (by simp)
      have h1 : a / 4 < 64 := by omega
      have h2 : a % 4 * 16 < 64 := by omega
      simp only [b64encode, b64decode, if_pos]
      rw [b64_inv h1, b64_inv h2]
      simp only [List.cons.injEq, and_true]
      omega
  | case3 a b =>
      have ha : a < 256 := h a (by simp)
      have hb : b < 256 := h b (by simp)
      have h1 : a / 4 < 64 := by omega
      have h2 : a % 4 * 16 + b / 16 < 64 := by omega
      have h3 : b % 16 * 4 < 64 := by omega
      simp only [b64encode, b64decode, if_neg (b64e_ne_61 h3), if_pos]
      rw [b64_inv h1, b64_inv h2, b64_inv h3]
      simp only [List.cons.injEq, and_true]
      omega
  | case4 a b c rest ih =>
      have ha : a < 256 := h a (by simp)
      have hb : b < 256 := h b (by simp)
      have hc : c < 256 := h c (by simp)
      have h1 : a / 4 < 64 := by omega
      have h2 : a % 4 * 16 + b / 16 < 64 := by omega
      have h3 : b % 16 * 4 + c / 64 < 64 := by omega
      have h4 : c % 64 < 64 := by omega
      have hrest : ∀ x ∈ rest, x < 256 := fun x hx => h x (by simp [hx])
      simp only [b64encode, b64decode, if_neg (b64e_ne_61 h3), if_neg (b64e_ne_61 h4)]
      rw [b64_inv h1, b64_inv h2, b64_inv h3, b64_inv h4, ih hrest]
      simp only [List.cons.injEq, and_true]
      refine ⟨by omega, by omega, by omega⟩

/-- C9: for every byte sequence, base64-decoding the base64 encoding
produced by the pipeline's encode step returns the original byte
sequence exactly. -/
theorem c9_base64_roundtrip (bs : List Nat) (h : ∀ x ∈ bs, x < 256) :
    b64decode (b64encode bs) = bs :=
  b64decode_b64encode bs h

/-- C9 witness: the round-trip at a concrete byte list. -/
theorem c9_base64_roundtrip_witness :
    (∀ x ∈ [255, 216, 255, 224, 0, 16, 74], x < 256)
    ∧ b64decode (b64encode [255, 216, 255, 224, 0, 16, 74])
        = [255, 216, 255, 224, 0, 16, 74] :=
  ⟨by decide, c9_base64_roundtrip [255, 216, 255, 224, 0, 16, 74] (by decide)⟩

/-! ## Substring facts -/

theorem startsWithL_append (xs ys pat : List Char)
    (h : startsWithL xs pat = true) : startsWithL (xs ++ ys) pat = true := by
  induction pat generalizing xs with
  | nil => simp [startsWithL]
  | cons b bs ih =>
      cases xs with
      | nil => simp [startsWithL] at h
      | cons a as =>
          simp only [startsWithL, Bool.and_eq_true] at h
          simp only [List.cons_append, startsWithL, Bool.and_eq_true]
          exact ⟨h.1, ih as h.2⟩

theorem containsL_of_startsWithL (l pat : List Char)
    (h : startsWithL l pat = true) : containsL l pat = true := by
  cases l with
  | nil =>
      cases pat with
      | nil => rfl
      | cons b bs => simp [startsWithL] at h
  | cons a as => simp [containsL, h]

theorem containsL_append_right (xs ys pat : List Char)
    (h : containsL ys pat = true) : containsL (xs ++ ys) pat = true := by
  induction xs with
  | nil => exact h
  | cons a as ih => simp [containsL, ih]

theorem startsWithL_refl (l : List Char) : startsWithL l l = true := by
  induction l with
  | nil => rfl
  | cons a as ih => simp [startsWithL, ih]

theorem containsL_self (l : List Char) : containsL l l = true :=
  containsL_of_startsWithL l l (startsWithL_refl l)

/-- A message of the form `"Invalid image format: " ++ d` mentions
"invalid image format" up to case, whatever the detail `d` is. -/
theorem mentionsCI_invalid_image_format (d : String) :
    mentionsCI ("Invalid image format: " ++ d) "invalid image format" = true := by
  unfold mentionsCI
  rw [String.data_append, List.map_append]
  exact containsL_of_startsWithL _ _ (startsWithL_append _ _ _ (by decide))

/-- A message of the form `pre ++ m` mentions `m`. -/
theorem mentionsCI_append_self (pre m : String) :
    mentionsCI (pre ++ m) m = true := by
  unfold mentionsCI
  rw [String.data_append, List.map_append]
  exact containsL_append_right _ _ _ (containsL_self _)

/-! ## Claims about the pipelines -/

/-- C1: for every empty byte input (with any query string), both
pipelines return a validation failure — the web endpoint a 400
"Empty file uploaded.", the CLI an "error" dict produced by the failing
PIL verify step, which is hypothesised to reject empty input (PIL
cannot identify an empty file) — and the outbound network call is never
issued (the request component of the result is `none`). -/
theorem c1_empty_input_validation_no_network
    (pilVerify : List Nat → Option String) (net : NetOutcome)
    (image_path query d : String)
    (hpil : pilVerify [] = some d) :
    process_image pilVerify net (FileOutcome.content []) image_path query
      = ([("error", Json.str ("Invalid image format: " ++ d))], none)
    ∧ upload_and_query pilVerify net [] query
      = (WebResult.httpError 400 "Empty file uploaded.", none) := by
  refine ⟨?_, rfl⟩
  simp [process_image, hpil]

/-- C1 witness: the empty input with a concrete PIL oracle. -/
theorem c1_witness :
    (fun bs : List Nat => if bs = [] then some "cannot identify image file" else none) []
        = some "cannot identify image file"
    ∧ (process_image
        (fun bs => if bs = [] then some "cannot identify image file" else none)
        (NetOutcome.timeout "t") (FileOutcome.content []) "scan.jpg" "what is shown?"
        = ([("error", Json.str ("Invalid image format: " ++ "cannot identify image file"))], none)
      ∧ upload_and_query
          (fun bs => if bs = [] then some "cannot identify image file" else none)
          (NetOutcome.timeout "t") [] "what is shown?"
        = (WebResult.httpError 400 "Empty file uploaded.", none)) :=
  ⟨rfl, c1_empty_input_validation_no_network
    (fun bs => if bs = [] then some "cannot identify image file" else none)
    (NetOutcome.timeout "t") "scan.jpg" "what is shown?"
    "cannot identify image file" rfl⟩

/-- C2: for every non-empty input the PIL verify step rejects (with
detail `d`), both pipelines fail with the message
`"Invalid image format: " ++ d` — which mentions "invalid image format"
(case-insensitively; the code capitalises the first letter) — and the
network call is never issued. -/
theorem c2_invalid_image_validation_no_network
    (pilVerify : List Nat → Option String) (net : NetOutcome)
    (bytes : List Nat) (image_path query d : String)
    (hne : bytes ≠ []) (hpil : pilVerify bytes = some d) :
    process_image pilVerify net (FileOutcome.content bytes) image_path query
      = ([("error", Json.str ("Invalid image format: " ++ d))], none)
    ∧ upload_and_query pilVerify net bytes query
      = (WebResult.httpError 400 ("Invalid image format: " ++ d), none)
    ∧ mentionsCI ("Invalid image format: " ++ d) "invalid image format" = true := by
  refine ⟨by simp [process_image, hpil], ?_, mentionsCI_invalid_image_format d⟩
  cases bytes with
  | nil => exact absurd rfl hne
  | cons x xs => simp [upload_and_query, hpil]

/-- C2 witness: three random non-image bytes with a concrete PIL oracle. -/
theorem c2_witness :
    ([7, 7, 7] : List Nat) ≠ []
    ∧ (fun _ : List Nat => some "cannot identify image file") [7, 7, 7]
        = some "cannot identify image file"
    ∧ (process_image (fun _ => some "cannot identify image file")
        (NetOutcome.timeout "t") (FileOutcome.content [7, 7, 7]) "x.bin" "q"
        = ([("error", Json.str ("Invalid image format: " ++ "cannot identify image file"))], none)
      ∧ upload_and_query (fun _ => some "cannot identify image file")
          (NetOutcome.timeout "t") [7, 7, 7] "q"
        = (WebResult.httpError 400 ("Invalid image format: " ++ "cannot identify image file"), none)
      ∧ mentionsCI ("Invalid image format: " ++ "cannot identify image file")
          "invalid image format" = true) :=
  ⟨by decide, rfl,
   c2_invalid_image_validation_no_network (fun _ => some "cannot identify image file")
     (NetOutcome.timeout "t") [7, 7, 7] "x.bin" "q" "cannot identify image file"
     (by decide) rfl⟩

/-- C10: the CLI pipeline is total at its public interface: a
nonexistent file path yields the dict with message
`"Image file not found: " ++ path` and no network call, and any other
exception while reading is converted into an "error" dict with the
generic message, again with no network call. (The embedding itself is a
total function, mirroring that `process_image` catches every exception
and always returns a dict.) -/
theorem c10_cli_total_error_dicts
    (pilVerify : List Nat → Option String) (net : NetOutcome)
    (image_path query d : String) :
    process_image pilVerify net FileOutcome.notFound image_path query
      = ([("error", Json.str ("Image file not found: " ++ image_path))], none)
    ∧ process_image pilVerify net (FileOutcome.readError d) image_path query
      = ([("error", Json.str ("An unexpected error occurred : " ++ d))], none) :=
  ⟨rfl, rfl⟩

/-- The CLI pipeline posts exactly the body built by `requestBody` from
the query and the base64 data URI of the file's bytes, and posts it
exactly when the PIL verify step passes. -/
theorem process_image_snd (pilVerify : List Nat → Option String)
    (net : NetOutcome) (bytes : List Nat) (image_path query : String) :
    (process_image pilVerify net (FileOutcome.content bytes) image_path query).2
      = match pilVerify bytes with
        | some _ => none
        | none => some (requestBody query (bytesToString (b64encode bytes))) := by
  cases hpil : pilVerify bytes with
  | some e => simp [process_image, hpil]
  | none =>
      cases net with
      | timeout d => simp [process_image, hpil]
      | netError d => simp [process_image, hpil]
      | response status jbody =>
          by_cases hs : status = 200
          · subst hs
            cases jbody with
            | error d => simp [process_image, hpil]
            | ok j => cases hE : extractAnswer j <;> simp [process_image, hpil, hE]
          · simp [process_image, hpil, hs]

/-- Same for the web pipeline: the posted body is `requestBody` of the
query and the data URI, posted exactly when the input is non-empty and
the PIL verify step passes. -/
theorem upload_and_query_snd (pilVerify : List Nat → Option String)
    (net : NetOutcome) (bytes : List Nat) (query : String) :
    (upload_and_query pilVerify net bytes query).2
      = if bytes.isEmpty then none
        else match pilVerify bytes with
        | some _ => none
        | none => some (requestBody query (bytesToString (b64encode bytes))) := by
  by_cases hb : bytes.isEmpty
  · simp [upload_and_query, hb]
  · cases hpil : pilVerify bytes with
    | some e => simp [upload_and_query, hb, hpil]
    | none =>
        cases net with
        | timeout d => simp [upload_and_query, hb, hpil]
        | netError d => simp [upload_and_query, hb, hpil]
        | response status jbody =>
            by_cases hs : status = 200
            · subst hs
              cases jbody with
              | error d => simp [upload_and_query, hb, hpil]
              | ok j =>
                  cases hE : extractAnswer j <;>
                    simp [upload_and_query, hb, hpil, hE]
            · cases jbody with
              | error d => simp [upload_and_query, hb, hpil, hs]
              | ok j =>
                  cases hD : upstreamErrorDetail j <;>
                    simp [upload_and_query, hb, hpil, hs, hD]

/-- C3: whenever either pipeline issues the outbound request, the
`image_url.url` string inside it is the base64 data URI of the source
bytes prefixed by the literal "data:image/jpeg;base64," — the declared
media type is `image/jpeg` no matter what format `bytes` actually is. -/
theorem c3_data_uri_always_jpeg
    (pilVerify : List Nat → Option String) (net : NetOutcome)
    (bytes : List Nat) (image_path query : String) (body : Json)
    (hsent : (process_image pilVerify net (FileOutcome.content bytes) image_path query).2
                = some body
             ∨ (upload_and_query pilVerify net bytes query).2 = some body) :
    imageUrlOf body
      = some ("data:image/jpeg;base64," ++ bytesToString (b64encode bytes)) := by
  have hbody : body = requestBody query (bytesToString (b64encode bytes)) := by
    rcases hsent with h | h
    · rw [process_image_snd] at h
      cases hpil : pilVerify bytes <;> rw [hpil] at h
      · exact (Option.some.inj h).symm
      · exact absurd h (by simp)
    · rw [upload_and_query_snd] at h
      by_cases hb : bytes.isEmpty
      · rw [if_pos hb] at h; exact absurd h (by simp)
      · rw [if_neg hb] at h
        cases hpil : pilVerify bytes <;> rw [hpil] at h
        · exact (Option.some.inj h).symm
        · exact absurd h (by simp)
  subst hbody
  rfl

/-- C3 witness: a PNG-signature byte list still yields a data URI
declared as image/jpeg. -/
theorem c3_witness :
    (process_image (fun _ => none) (NetOutcome.timeout "t0") (FileOutcome.content [137, 80, 78, 71]) "a.png" "q").2
        = some (requestBody "q" (bytesToString (b64encode [137, 80, 78, 71])))
    ∧ imageUrlOf (requestBody "q" (bytesToString (b64encode [137, 80, 78, 71])))
        = some ("data:image/jpeg;base64," ++ bytesToString (b64encode [137, 80, 78, 71])) :=
  ⟨rfl,
   c3_data_uri_always_jpeg (fun _ => none) (NetOutcome.timeout "t0") [137, 80, 78, 71] "a.png" "q"
     (requestBody "q" (bytesToString (b64encode [137, 80, 78, 71]))) (Or.inl rfl)⟩

/-- C4: whenever either pipeline issues the outbound request, its body
carries the fixed model identifier, the fixed `max_tokens` value 1000,
and exactly one message, of role "user", whose content is exactly two
parts in order: a text part carrying the query verbatim, then an
image_url part carrying the base64 data URI. -/
theorem c4_request_body_shape
    (pilVerify : List Nat → Option String) (net : NetOutcome)
    (bytes : List Nat) (image_path query : String) (body : Json)
    (hsent : (process_image pilVerify net (FileOutcome.content bytes) image_path query).2
                = some body
             ∨ (upload_and_query pilVerify net bytes query).2 = some body) :
    body.getField "model" = some (Json.str VISION_MODEL)
    ∧ body.getField "max_tokens" = some (Json.num 1000)
    ∧ body.getField "messages" = some (Json.arr
        [Json.obj
          [("role", Json.str "user"),
           ("content", Json.arr
             [Json.obj [("type", Json.str "text"), ("text", Json.str query)],
              Json.obj [("type", Json.str "image_url"),
                        ("image_url", Json.obj
                          [("url", Json.str ("data:image/jpeg;base64,"
                              ++ bytesToString (b64encode bytes)))])]])]]) := by
  have hbody : body = requestBody query (bytesToString (b64encode bytes)) := by
    rcases hsent with h | h
    · rw [process_image_snd] at h
      cases hpil : pilVerify bytes <;> rw [hpil] at h
      · exact (Option.some.inj h).symm
      · exact absurd h (by simp)
    · rw [upload_and_query_snd] at h
      by_cases hb : bytes.isEmpty
      · rw [if_pos hb] at h; exact absurd h (by simp)
      · rw [if_neg hb] at h
        cases hpil : pilVerify bytes <;> rw [hpil] at h
        · exact (Option.some.inj h).symm
        · exact absurd h (by simp)
  subst hbody
  exact ⟨rfl, rfl, rfl⟩

/-- C4 witness: the request issued for a concrete input. -/
theorem c4_witness :
    (process_image (fun _ => none) (NetOutcome.timeout "t")
        (FileOutcome.content [1, 2, 3]) "a.jpg" "describe this").2
      = some (requestBody "describe this" (bytesToString (b64encode [1, 2, 3])))
    ∧ ((requestBody "describe this" (bytesToString (b64encode [1, 2, 3]))).getField "model"
          = some (Json.str VISION_MODEL)
      ∧ (requestBody "describe this" (bytesToString (b64encode [1, 2, 3]))).getField "max_tokens"
          = some (Json.num 1000)
      ∧ (requestBody "describe this" (bytesToString (b64encode [1, 2, 3]))).getField "messages"
          = some (Json.arr
              [Json.obj
                [("role", Json.str "user"),
                 ("content", Json.arr
                   [Json.obj [("type", Json.str "text"), ("text", Json.str "describe this")],
                    Json.obj [("type", Json.str "image_url"),
                              ("image_url", Json.obj
                                [("url", Json.str ("data:image/jpeg;base64,"
                                    ++ bytesToString (b64encode [1, 2, 3])))])]])]])) :=
  ⟨rfl,
   c4_request_body_shape (fun _ => none) (NetOutcome.timeout "t") [1, 2, 3]
     "a.jpg" "describe this"
     (requestBody "describe this" (bytesToString (b64encode [1, 2, 3]))) (Or.inl rfl)⟩

/-- C5: when the endpoint answers HTTP 200 with a body whose
choices[0].message.content is the string `X`, both pipelines return a
success result whose answer is exactly `X`, keyed by the fixed model
identifier. -/
theorem c5_success_answer
    (pilVerify : List Nat → Option String) (bytes : List Nat)
    (image_path query X : String)
    (hne : bytes ≠ []) (hpil : pilVerify bytes = none) :
    (process_image pilVerify (NetOutcome.response 200 (Except.ok (ok200Body X)))
        (FileOutcome.content bytes) image_path query).1
      = [(VISION_MODEL, Json.str X)]
    ∧ (upload_and_query pilVerify (NetOutcome.response 200 (Except.ok (ok200Body X)))
        bytes query).1
      = WebResult.jsonOk [(VISION_MODEL, Json.str X)] := by
  constructor
  · simp [process_image, hpil, extractAnswer, ok200Body]
  · cases bytes with
    | nil => exact absurd rfl hne
    | cons x xs => simp [upload_and_query, hpil, extractAnswer, ok200Body]

/-- C5 witness: a concrete 200 response with content "X". -/
theorem c5_witness :
    ([9, 9] : List Nat) ≠ []
    ∧ (fun _ : List Nat => none) [9, 9] = (none : Option String)
    ∧ ((process_image (fun _ => none) (NetOutcome.response 200 (Except.ok (ok200Body "X")))
          (FileOutcome.content [9, 9]) "a.jpg" "q").1
        = [(VISION_MODEL, Json.str "X")]
      ∧ (upload_and_query (fun _ => none)
          (NetOutcome.response 200 (Except.ok (ok200Body "X"))) [9, 9] "q").1
        = WebResult.jsonOk [(VISION_MODEL, Json.str "X")]) :=
  ⟨by decide, rfl,
   c5_success_answer (fun _ => none) [9, 9] "a.jpg" "q" "X" (by decide) rfl⟩

/-- C6 counterexample: on HTTP 404 with body carrying the upstream
message "model not found", the CLI pipeline's error message is
"Error from Groq API: 404" — it does not contain (even case-
insensitively) the upstream error message, refuting the claim that the
pipeline's failure message contains it. -/
theorem c6_counterexample :
    errMsgOf (process_image (fun _ => none)
        (NetOutcome.response 404 (Except.ok (errBody "model not found")))
        (FileOutcome.content [1, 2, 3]) "a.jpg" "q").1
      = some "Error from Groq API: 404"
    ∧ mentionsCI "Error from Groq API: 404" "model not found" = false :=
  ⟨rfl, by decide⟩

/-- C6 (amended): on a non-200 response, the web pipeline raises an
HTTP error with the upstream status and a detail
`"Groq API Error: " ++ m` that contains the upstream error message `m`
extracted from the JSON body; the CLI pipeline returns an error dict
carrying only the upstream status code in its message
(`"Error from Groq API: " ++ status`), not the upstream error
message. -/
theorem c6_upstream_error_mapping
    (pilVerify : List Nat → Option String) (status : Nat)
    (jbody : Json) (bytes : List Nat) (image_path query m : String)
    (hne : bytes ≠ []) (hpil : pilVerify bytes = none)
    (hs : status ≠ 200)
    (hdet : upstreamErrorDetail jbody = Except.ok m) :
    (process_image pilVerify (NetOutcome.response status (Except.ok jbody))
        (FileOutcome.content bytes) image_path query).1
      = [("error", Json.str ("Error from Groq API: " ++ toString status))]
    ∧ (upload_and_query pilVerify (NetOutcome.response status (Except.ok jbody))
        bytes query).1
      = WebResult.httpError status ("Groq API Error: " ++ m)
    ∧ mentionsCI ("Groq API Error: " ++ m) m = true := by
  refine ⟨by simp [process_image, hpil, hs], ?_, mentionsCI_append_self _ m⟩
  cases bytes with
  | nil => exact absurd rfl hne
  | cons x xs => simp [upload_and_query, hpil, hs, hdet]

/-- C6 witness: HTTP 404 with upstream message "model not found". -/
theorem c6_witness :
    ([1, 2, 3] : List Nat) ≠ []
    ∧ (fun _ : List Nat => none) [1, 2, 3] = (none : Option String)
    ∧ (404 : Nat) ≠ 200
    ∧ upstreamErrorDetail (errBody "model not found") = Except.ok "model not found"
    ∧ ((process_image (fun _ => none)
          (NetOutcome.response 404 (Except.ok (errBody "model not found")))
          (FileOutcome.content [1, 2, 3]) "a.jpg" "q").1
        = [("error", Json.str ("Error from Groq API: " ++ toString 404))]
      ∧ (upload_and_query (fun _ => none)
          (NetOutcome.response 404 (Except.ok (errBody "model not found")))
          [1, 2, 3] "q").1
        = WebResult.httpError 404 ("Groq API Error: " ++ "model not found")
      ∧ mentionsCI ("Groq API Error: " ++ "model not found") "model not found" = true) :=
  ⟨by decide, rfl, by decide, rfl,
   c6_upstream_error_mapping (fun _ => none) 404 (errBody "model not found")
     [1, 2, 3] "a.jpg" "q" "model not found" (by decide) rfl (by decide) rfl⟩

/-- C7 counterexample: on a timeout the CLI pipeline's message is
"Request timed out." — not the claimed "request timed out" — and the
web pipeline does not produce a timeout-specific failure at all: the
timeout exception falls into the generic handler and becomes a 500
"Internal Server Error". -/
theorem c7_counterexample :
    errMsgOf (process_image (fun _ => none) (NetOutcome.timeout "read timed out")
        (FileOutcome.content [1]) "a.jpg" "q").1
      = some "Request timed out."
    ∧ "Request timed out." ≠ "request timed out"
    ∧ (upload_and_query (fun _ => none) (NetOutcome.timeout "read timed out")
        [1] "q").1
      = WebResult.httpError 500 ("Internal Server Error: " ++ "read timed out") :=
  ⟨rfl, by decide, rfl⟩

/-- C7 (amended): when the outbound call times out, the CLI pipeline
returns an error dict whose message is exactly "Request timed out."
(and carries no upstream status code — the dict holds nothing but that
message), while the web pipeline converts the timeout exception into a
500 response with detail `"Internal Server Error: " ++ detail`; in both
cases the posted request is recorded, i.e. control returned after the
call rather than the pipeline raising. -/
theorem c7_timeout_mapping
    (pilVerify : List Nat → Option String) (bytes : List Nat)
    (image_path query detail : String)
    (hne : bytes ≠ []) (hpil : pilVerify bytes = none) :
    process_image pilVerify (NetOutcome.timeout detail)
        (FileOutcome.content bytes) image_path query
      = ([("error", Json.str "Request timed out.")],
         some (requestBody query (bytesToString (b64encode bytes))))
    ∧ upload_and_query pilVerify (NetOutcome.timeout detail) bytes query
      = (WebResult.httpError 500 ("Internal Server Error: " ++ detail),
         some (requestBody query (bytesToString (b64encode bytes)))) := by
  refine ⟨by simp [process_image, hpil], ?_⟩
  cases bytes with
  | nil => exact absurd rfl hne
  | cons x xs => simp [upload_and_query, hpil]

/-- C7 witness: a concrete timeout. -/
theorem c7_witness :
    ([1] : List Nat) ≠ []
    ∧ (fun _ : List Nat => none) [1] = (none : Option String)
    ∧ (process_image (fun _ => none) (NetOutcome.timeout "read timed out")
          (FileOutcome.content [1]) "a.jpg" "q"
        = ([("error", Json.str "Request timed out.")],
           some (requestBody "q" (bytesToString (b64encode [1]))))
      ∧ upload_and_query (fun _ => none) (NetOutcome.timeout "read timed out") [1] "q"
        = (WebResult.httpError 500 ("Internal Server Error: " ++ "read timed out"),
           some (requestBody "q" (bytesToString (b64encode [1]))))) :=
  ⟨by decide, rfl,
   c7_timeout_mapping (fun _ => none) [1] "a.jpg" "q" "read timed out" (by decide) rfl⟩

/-- Every CLI result dict is a single-entry dict, either an "error"
entry holding a string message or an entry keyed by the model
identifier holding the answer. -/
theorem process_image_result_shape
    (pilVerify : List Nat → Option String) (net : NetOutcome)
    (fileOut : FileOutcome) (image_path query : String) :
    (∃ m, (process_image pilVerify net fileOut image_path query).1
            = [("error", Json.str m)])
    ∨ (∃ a, (process_image pilVerify net fileOut image_path query).1
            = [(VISION_MODEL, a)]) := by
  cases fileOut with
  | notFound => exact Or.inl ⟨"Image file not found: " ++ image_path, rfl⟩
  | readError d => exact Or.inl ⟨"An unexpected error occurred : " ++ d, rfl⟩
  | content bytes =>
      cases hpil : pilVerify bytes with
      | some e =>
          exact Or.inl ⟨"Invalid image format: " ++ e, by simp [process_image, hpil]⟩
      | none =>
          cases net with
          | timeout d =>
              exact Or.inl ⟨"Request timed out.", by simp [process_image, hpil]⟩
          | netError d =>
              exact Or.inl ⟨"Network error: " ++ d, by simp [process_image, hpil]⟩
          | response status jbody =>
              by_cases hs : status = 200
              · subst hs
                cases jbody with
                | error d =>
                    exact Or.inl ⟨"An unexpected error occurred : " ++ d,
                      by simp [process_image, hpil]⟩
                | ok j =>
                    cases hE : extractAnswer j with
                    | ok a => exact Or.inr ⟨a, by simp [process_image, hpil, hE]⟩
                    | error d =>
                        exact Or.inl ⟨"An unexpected error occurred : " ++ d,
                          by simp [process_image, hpil, hE]⟩
              · exact Or.inl ⟨"Error from Groq API: " ++ toString status,
                  by simp [process_image, hpil, hs]⟩

/-- C8: for every input and every remote-endpoint behaviour, the CLI
result dict is a tagged union: the "error" key and the
model-identifier answer key are never both present, and one of the two
is always present. -/
theorem c8_result_tagged_union
    (pilVerify : List Nat → Option String) (net : NetOutcome)
    (fileOut : FileOutcome) (image_path query : String) :
    ((List.lookup "error" (process_image pilVerify net fileOut image_path query).1).isSome
      && (List.lookup VISION_MODEL (process_image pilVerify net fileOut image_path query).1).isSome)
      = false
    ∧ ((List.lookup "error" (process_image pilVerify net fileOut image_path query).1).isSome
      || (List.lookup VISION_MODEL (process_image pilVerify net fileOut image_path query).1).isSome)
      = true := by
  rcases process_image_result_shape pilVerify net fileOut image_path query with
    ⟨m, hm⟩ | ⟨a, ha⟩
  · rw [hm]; exact ⟨rfl, rfl⟩
  · rw [ha]; exact ⟨rfl, rfl⟩

end MedicalChatbot
